import Mathlib

/-!
Verification development for the pmm-managed job scheduling and backup
orchestration core. The definitions below are a shallow embedding of
src/services/management/ia/rules_service.go (package backup:
BackupsService.StartBackup, prepareBackupJob, prepareRestoreJob,
startRestoreJob, RestoreBackup) and of src/unnamed/part_001 (package
scheduler: the Task interface, the shared common identity holder and the
printTask / mySQLBackupTask / mongoBackupTask variants).

The transactional store (package models) is not part of the sources; its
lookup and create operations are modelled as an in-memory database with
explicit state passing, following the spec description of the
TransactionalStore collaborator: find service / location / artifact /
agents-for-service by id, create Artifact / JobResult / RestoreHistoryItem
rows, and commit or roll back atomically (the transaction helper commits
the new state when the body succeeds and keeps the original state when the
body returns an error). The jobs service (agent dispatch) collaborator is
a parameter: a pair of functions that may fail, and every dispatch call
made is recorded so that theorems can count invocations and inspect
arguments.
-/

namespace PmmManaged

/-- Error classification. gRPC status errors carry an explicit code in the
source (codes.Unimplemented, codes.Unknown); store lookups that miss return
NotFound per the spec; errors built with errors.Errorf carry no code and are
modelled as generic. -/
inductive Err where
  | notFound (msg : String)
  | unimplemented (msg : String)
  | unknown (msg : String)
  | generic (msg : String)
  | dispatchFail (msg : String)
deriving DecidableEq, Repr

/-- True exactly for errors built with errors.Errorf, which carry no
inspectable classification. -/
def Err.isGeneric : Err → Bool
  | .generic _ => true
  | _ => false

/-- models.Service: only the fields the orchestrator reads. ServiceType is
a string in the source (models.MySQLServiceType = "mysql" and so on). -/
structure Service where
  serviceID : String
  serviceType : String
deriving DecidableEq, Repr

/-- models.BackupLocation: id plus the three transport configuration
fields read by the orchestrator, each nullable in the source. -/
structure BackupLocation where
  locationID : String
  pmmServerConfig : Option String
  pmmClientConfig : Option String
  s3Config : Option String
deriving DecidableEq, Repr

/-- models.BackupLocationConfig, assembled from a location before
dispatch. -/
structure BackupLocationConfig where
  pmmServerConfig : Option String
  pmmClientConfig : Option String
  s3Config : Option String
deriving DecidableEq, Repr

/-- models.DataModel. -/
inductive DataModel where
  | physical
  | logical
deriving DecidableEq, Repr

/-- models.BackupStatus. -/
inductive BackupStatus where
  | pending
  | inProgress
  | success
  | error
deriving DecidableEq, Repr

/-- models.Artifact row. -/
structure Artifact where
  id : String
  name : String
  vendor : String
  locationID : String
  serviceID : String
  dataModel : DataModel
  status : BackupStatus
deriving DecidableEq, Repr

/-- models.RestoreStatus. -/
inductive RestoreStatus where
  | inProgress
  | success
  | error
deriving DecidableEq, Repr

/-- models.RestoreHistoryItem row. -/
structure RestoreHistoryItem where
  id : String
  artifactID : String
  serviceID : String
  status : RestoreStatus
deriving DecidableEq, Repr

/-- models.JobType: only the two job types the orchestrator creates. -/
inductive JobType where
  | mySQLBackupJob
  | mySQLRestoreBackupJob
deriving DecidableEq, Repr

/-- models.MySQLBackupJobResult payload: the tag correlating the job back
to its artifact. -/
structure MySQLBackupJobResult where
  artifactID : String
deriving DecidableEq, Repr

/-- models.MySQLRestoreBackupJobResult payload: the tag correlating the
job back to its restore history item. -/
structure MySQLRestoreBackupJobResult where
  restoreID : String
deriving DecidableEq, Repr

/-- models.JobResultData: a tagged union encoded, as in the source, as a
struct of nullable payloads. -/
structure JobResultData where
  mySQLBackup : Option MySQLBackupJobResult
  mySQLRestoreBackup : Option MySQLRestoreBackupJobResult
deriving DecidableEq, Repr

/-- models.JobResult row. -/
structure JobResult where
  id : String
  pmmAgentID : String
  jobType : JobType
  result : JobResultData
deriving DecidableEq, Repr

/-- models.Agent: only the id is read. -/
structure Agent where
  agentID : String
deriving DecidableEq, Repr

/-- models.DBConfig, opaque to the orchestrator: resolved for the service
and passed through to dispatch unchanged. -/
abbrev DBConfig := String

/-- Modelled from the spec: the transactional relational store as an
in-memory database. Agents are kept as (serviceID, agent) pairs in
registration order; dbConfigs maps a serviceID to its DB configuration.
nextID feeds the id generator used by the create operations. -/
structure DB where
  services : List Service
  locations : List BackupLocation
  artifacts : List Artifact
  restoreItems : List RestoreHistoryItem
  jobResults : List JobResult
  agents : List (String × Agent)
  dbConfigs : List (String × DBConfig)
  nextID : Nat
deriving DecidableEq, Repr

/-- Id generation for created rows: a fixed prefix plus a fresh counter
value, standing in for the prefixed UUIDs the models package generates. -/
def genID (pfx : String) (n : Nat) : String := pfx ++ toString n

/-- Modelled from the spec: models.FindServiceByID fails NotFound when the
service id is absent. -/
def FindServiceByID (db : DB) (id : String) : Except Err Service :=
  match db.services.find? (fun s => s.serviceID == id) with
  | some s => .ok s
  | none => .error (.notFound ("service " ++ id ++ " not found"))

/-- Modelled from the spec: models.FindBackupLocationByID fails NotFound
when the location id is absent. -/
def FindBackupLocationByID (db : DB) (id : String) : Except Err BackupLocation :=
  match db.locations.find? (fun l => l.locationID == id) with
  | some l => .ok l
  | none => .error (.notFound ("backup location " ++ id ++ " not found"))

/-- Modelled from the spec: models.FindArtifactByID fails NotFound when
the artifact id is absent. -/
def FindArtifactByID (db : DB) (id : String) : Except Err Artifact :=
  match db.artifacts.find? (fun a => a.id == id) with
  | some a => .ok a
  | none => .error (.notFound ("artifact " ++ id ++ " not found"))

/-- Modelled from the spec: models.FindPMMAgentsForService returns the
agents registered for the service, in order; an empty result is not an
error at this level (the callers check for emptiness themselves). -/
def FindPMMAgentsForService (db : DB) (serviceID : String) : List Agent :=
  (db.agents.filter (fun p => p.1 == serviceID)).map (fun p => p.2)

/-- Modelled from the spec: models.FindDBConfigForService resolves the DB
connection configuration for the service, failing NotFound when none
exists. -/
def FindDBConfigForService (db : DB) (serviceID : String) : Except Err DBConfig :=
  match db.dbConfigs.find? (fun p => p.1 == serviceID) with
  | some p => .ok p.2
  | none => .error (.notFound ("DB config for service " ++ serviceID ++ " not found"))

/-- models.CreateArtifactParams. -/
structure CreateArtifactParams where
  name : String
  vendor : String
  locationID : String
  serviceID : String
  dataModel : DataModel
  status : BackupStatus
deriving DecidableEq, Repr

/-- Modelled from the spec: models.CreateArtifact inserts a new Artifact
row with a fresh id. -/
def CreateArtifact (db : DB) (p : CreateArtifactParams) : Artifact × DB :=
  let a : Artifact :=
    { id := genID "/artifact_id/" db.nextID
      name := p.name
      vendor := p.vendor
      locationID := p.locationID
      serviceID := p.serviceID
      dataModel := p.dataModel
      status := p.status }
  (a, { db with artifacts := db.artifacts ++ [a], nextID := db.nextID + 1 })

/-- Modelled from the spec: models.CreateJobResult inserts a new JobResult
row with a fresh id, the chosen agent and the tagged payload. -/
def CreateJobResult (db : DB) (pmmAgentID : String) (jobType : JobType)
    (data : JobResultData) : JobResult × DB :=
  let j : JobResult :=
    { id := genID "/job_id/" db.nextID
      pmmAgentID := pmmAgentID
      jobType := jobType
      result := data }
  (j, { db with jobResults := db.jobResults ++ [j], nextID := db.nextID + 1 })

/-- models.CreateRestoreHistoryItemParams. -/
structure CreateRestoreHistoryItemParams where
  artifactID : String
  serviceID : String
  status : RestoreStatus
deriving DecidableEq, Repr

/-- Modelled from the spec: models.CreateRestoreHistoryItem inserts a new
RestoreHistoryItem row with a fresh id. -/
def CreateRestoreHistoryItem (db : DB) (p : CreateRestoreHistoryItemParams) :
    RestoreHistoryItem × DB :=
  let r : RestoreHistoryItem :=
    { id := genID "/restore_id/" db.nextID
      artifactID := p.artifactID
      serviceID := p.serviceID
      status := p.status }
  (r, { db with restoreItems := db.restoreItems ++ [r], nextID := db.nextID + 1 })

/-- Arguments of one jobsService.StartMySQLBackupJob dispatch call. -/
structure MySQLBackupCall where
  jobID : String
  pmmAgentID : String
  priority : Nat
  name : String
  dbConfig : DBConfig
  locationConfig : BackupLocationConfig
deriving DecidableEq, Repr

/-- Arguments of one jobsService.StartMySQLRestoreBackupJob dispatch
call. -/
structure MySQLRestoreCall where
  jobID : String
  pmmAgentID : String
  serviceID : String
  priority : Nat
  name : String
  locationConfig : BackupLocationConfig
deriving DecidableEq, Repr

/-- The jobsService (agent dispatch) collaborator: each call either
succeeds (none) or fails with an error. -/
structure JobsService where
  startMySQLBackupJob : MySQLBackupCall → Option Err
  startMySQLRestoreBackupJob : MySQLRestoreCall → Option Err

/-- The service types the backup switch recognizes but rejects with
codes.Unimplemented (rules_service.go lines 107 to 116). -/
def unsupportedServiceTypes : List String :=
  ["postgresql", "mongodb", "proxysql", "haproxy", "external"]

/-- The service type switch at the start of the StartBackup transaction:
mysql maps to the physical data model; the recognized but unsupported
types fail Unimplemented; anything else falls to the default case and
fails Unknown. -/
def serviceDataModel (st : String) : Except Err DataModel :=
  if st == "mysql" then .ok .physical
  else if st ∈ unsupportedServiceTypes then
    .error (.unimplemented ("unimplemented service: " ++ st))
  else .error (.unknown ("unknown service: " ++ st))

/-- BackupsService.prepareBackupJob: resolve the DB config, take the first
agent for the service (a plain errors.Errorf failure when there is none),
and create the JobResult tagged with the artifact id. -/
def prepareBackupJob (db : DB) (service : Service) (artifactID : String)
    (jobType : JobType) : Except Err (JobResult × DBConfig × DB) := do
  let dbConfig ← FindDBConfigForService db service.serviceID
  let pmmAgents := FindPMMAgentsForService db service.serviceID
  match pmmAgents with
  | [] => .error (.generic "pmmAgent not found for service")
  | agent :: _ =>
    let (res, db1) := CreateJobResult db agent.agentID jobType
      { mySQLBackup := some { artifactID := artifactID }, mySQLRestoreBackup := none }
    return (res, dbConfig, db1)

/-- Everything the StartBackup transaction body passes to the code after
commit. -/
structure StartBackupTxOut where
  svc : Service
  location : BackupLocation
  artifact : Artifact
  job : JobResult
  config : DBConfig
  db : DB

/-- The transaction body of BackupsService.StartBackup: resolve service
and location, classify the service type, create the Artifact with pending
status and the vendor set to the service type string, then prepare the
backup job. -/
def startBackupTx (db : DB) (serviceId locationId name : String) :
    Except Err StartBackupTxOut := do
  let svc ← FindServiceByID db serviceId
  let location ← FindBackupLocationByID db locationId
  let dataModel ← serviceDataModel svc.serviceType
  let (artifact, db1) := CreateArtifact db
    { name := name
      vendor := svc.serviceType
      locationID := location.locationID
      serviceID := svc.serviceID
      dataModel := dataModel
      status := .pending }
  let (job, config, db2) ← prepareBackupJob db1 svc artifact.id .mySQLBackupJob
  return { svc := svc, location := location, artifact := artifact,
           job := job, config := config, db := db2 }

/-- BackupsService.StartBackup. The transaction body runs first; on error
the original database is kept (rollback) and no dispatch happens. On
commit the location transport configuration is assembled and, for a mysql
service, StartMySQLBackupJob is dispatched with the job id, agent id,
priority 0, the request name, the resolved DB config and the location
configuration; the recorded call list holds every dispatch made. A
dispatch error is returned to the caller while the committed state is
kept. Returns the artifact id on success. -/
def StartBackup (js : JobsService) (db : DB) (serviceId locationId name : String) :
    Except Err String × DB × List MySQLBackupCall :=
  match startBackupTx db serviceId locationId name with
  | .error e => (.error e, db, [])
  | .ok out =>
    let locationConfig : BackupLocationConfig :=
      { pmmServerConfig := out.location.pmmServerConfig
        pmmClientConfig := out.location.pmmClientConfig
        s3Config := out.location.s3Config }
    if out.svc.serviceType == "mysql" then
      let call : MySQLBackupCall :=
        { jobID := out.job.id
          pmmAgentID := out.job.pmmAgentID
          priority := 0
          name := name
          dbConfig := out.config
          locationConfig := locationConfig }
      match js.startMySQLBackupJob call with
      | some e => (.error e, out.db, [call])
      | none => (.ok out.artifact.id, out.db, [call])
    else if out.svc.serviceType ∈ unsupportedServiceTypes then
      (.error (.unimplemented ("unimplemented service: " ++ out.svc.serviceType)), out.db, [])
    else
      (.error (.unknown ("unknown service: " ++ out.svc.serviceType)), out.db, [])

/-- prepareRestoreJobParams from the source. -/
structure PrepareRestoreJobParams where
  agentID : String
  artifactName : String
  location : BackupLocation
  serviceType : String
deriving DecidableEq, Repr

/-- BackupsService.prepareRestoreJob: resolve the service, the artifact,
the location stored on the artifact, and the first agent for the service
(a plain errors.Errorf failure when there is none). No check relates the
artifact to the target service. -/
def prepareRestoreJob (db : DB) (serviceID artifactID : String) :
    Except Err PrepareRestoreJobParams := do
  let service ← FindServiceByID db serviceID
  let artifact ← FindArtifactByID db artifactID
  let location ← FindBackupLocationByID db artifact.locationID
  let agents := FindPMMAgentsForService db serviceID
  match agents with
  | [] => .error (.generic ("cannot find pmm agent for service " ++ serviceID))
  | a :: _ =>
    return { agentID := a.agentID
             artifactName := artifact.name
             location := location
             serviceType := service.serviceType }

/-- Everything the RestoreBackup transaction body passes to the code after
commit. -/
structure RestoreTxOut where
  params : PrepareRestoreJobParams
  restoreID : String
  jobID : String
  db : DB

/-- The transaction body of BackupsService.RestoreBackup: prepare the
restore, create the RestoreHistoryItem with in-progress status, and create
the JobResult tagged with the restore id. The service type is not examined
here: rows are created for every service type. -/
def restoreBackupTx (db : DB) (serviceId artifactId : String) :
    Except Err RestoreTxOut := do
  let params ← prepareRestoreJob db serviceId artifactId
  let (restore, db1) := CreateRestoreHistoryItem db
    { artifactID := artifactId, serviceID := serviceId, status := .inProgress }
  let (job, db2) := CreateJobResult db1 params.agentID .mySQLRestoreBackupJob
    { mySQLBackup := none, mySQLRestoreBackup := some { restoreID := restore.id } }
  return { params := params, restoreID := restore.id, jobID := job.id, db := db2 }

/-- BackupsService.startRestoreJob, run after the transaction commits:
assemble the location configuration and, for a mysql service, dispatch
StartMySQLRestoreBackupJob with the job id, agent id, service id, priority
0, the artifact name and the location configuration; unsupported types
fail Unimplemented and unknown types fail Unknown, with no dispatch call
made. -/
def startRestoreJob (js : JobsService) (jobID serviceID : String)
    (params : PrepareRestoreJobParams) : Option Err × List MySQLRestoreCall :=
  let locationConfig : BackupLocationConfig :=
    { pmmServerConfig := params.location.pmmServerConfig
      pmmClientConfig := params.location.pmmClientConfig
      s3Config := params.location.s3Config }
  if params.serviceType == "mysql" then
    let call : MySQLRestoreCall :=
      { jobID := jobID
        pmmAgentID := params.agentID
        serviceID := serviceID
        priority := 0
        name := params.artifactName
        locationConfig := locationConfig }
    (js.startMySQLRestoreBackupJob call, [call])
  else if params.serviceType ∈ unsupportedServiceTypes then
    (some (.unimplemented ("unimplemented service: " ++ params.serviceType)), [])
  else
    (some (.unknown ("unknown service: " ++ params.serviceType)), [])

/-- BackupsService.RestoreBackup: run the transaction body (rollback keeps
the original database on error), then start the restore job; a failure of
startRestoreJob is returned to the caller while the committed rows are
kept. Returns the restore history item id on success. -/
def RestoreBackup (js : JobsService) (db : DB) (serviceId artifactId : String) :
    Except Err String × DB × List MySQLRestoreCall :=
  match restoreBackupTx db serviceId artifactId with
  | .error e => (.error e, db, [])
  | .ok out =>
    match startRestoreJob js out.jobID serviceId out.params with
    | (some e, calls) => (.error e, out.db, calls)
    | (none, calls) => (.ok out.restoreID, out.db, calls)

/-! Scheduler task abstraction, embedded from src/unnamed/part_001
(package scheduler). Each Go method on a pointer receiver becomes a pure
function; methods that can write the receiver return the updated task. -/

/-- models.ScheduledTaskType. -/
inductive ScheduledTaskType where
  | scheduledPrintTask
  | scheduledMySQLBackupTask
  | scheduledMongoBackupTask
deriving DecidableEq, Repr

/-- models.PrintTaskData. -/
structure PrintTaskData where
  message : String
deriving DecidableEq, Repr

/-- models.MySQLBackupTaskData. -/
structure MySQLBackupTaskData where
  serviceID : String
  locationID : String
  name : String
  description : String
deriving DecidableEq, Repr

/-- models.MongoBackupTaskData. -/
structure MongoBackupTaskData where
  serviceID : String
  locationID : String
  name : String
  description : String
deriving DecidableEq, Repr

/-- models.ScheduledTaskData: a tagged union encoded, as in the source, as
a struct of nullable variant payloads. -/
structure ScheduledTaskData where
  print : Option PrintTaskData
  mySQLBackupTask : Option MySQLBackupTaskData
  mongoBackupTask : Option MongoBackupTaskData
deriving DecidableEq, Repr

/-- The common identity holder embedded in every task variant. -/
structure Common where
  id : String
deriving DecidableEq, Repr

/-- common.ID. -/
def Common.getID (c : Common) : String := c.id

/-- common.SetID: a plain assignment of the id field. -/
def Common.setID (c : Common) (id : String) : Common := { c with id := id }

/-- The closed set of Task variants from the source: printTask,
mySQLBackupTask and mongoBackupTask, each carrying its common identity
holder and the fields set by its constructor. The backupsLogicService
collaborator held by the backup variants takes no part in identity,
Type or Data and is left out of the state. -/
inductive Task where
  | printTask (common : Common) (message : String)
  | mySQLBackupTask (common : Common)
      (serviceID locationID name description : String)
  | mongoBackupTask (common : Common)
      (serviceID locationID name description : String)
deriving DecidableEq, Repr

/-- NewPrintTask: fresh empty identity plus the message. -/
def NewPrintTask (message : String) : Task :=
  .printTask { id := "" } message

/-- NewMySQLBackupTask: fresh empty identity plus the four parameters. -/
def NewMySQLBackupTask (serviceID locationID name description : String) : Task :=
  .mySQLBackupTask { id := "" } serviceID locationID name description

/-- NewMongoBackupTask: fresh empty identity plus the four parameters. -/
def NewMongoBackupTask (serviceID locationID name description : String) : Task :=
  .mongoBackupTask { id := "" } serviceID locationID name description

/-- Task.ID, delegated to the embedded common holder in every variant. -/
def Task.getID : Task → String
  | .printTask c _ => c.getID
  | .mySQLBackupTask c _ _ _ _ => c.getID
  | .mongoBackupTask c _ _ _ _ => c.getID

/-- Task.SetID, delegated to the embedded common holder in every variant:
a plain overwrite of the stored id, with no check that an id was already
set. -/
def Task.setID : Task → String → Task
  | .printTask c m, id => .printTask (c.setID id) m
  | .mySQLBackupTask c s l n d, id => .mySQLBackupTask (c.setID id) s l n d
  | .mongoBackupTask c s l n d, id => .mongoBackupTask (c.setID id) s l n d

/-- Task.Type: the stable discriminator of each variant. -/
def Task.type : Task → ScheduledTaskType
  | .printTask _ _ => .scheduledPrintTask
  | .mySQLBackupTask _ _ _ _ _ => .scheduledMySQLBackupTask
  | .mongoBackupTask _ _ _ _ _ => .scheduledMongoBackupTask

/-- Task.Data: the variant payload built from the stored fields, exactly
as each Data method writes it. -/
def Task.data : Task → ScheduledTaskData
  | .printTask _ m =>
    { print := some { message := m }, mySQLBackupTask := none, mongoBackupTask := none }
  | .mySQLBackupTask _ s l n d =>
    { print := none
      mySQLBackupTask := some { serviceID := s, locationID := l, name := n, description := d }
      mongoBackupTask := none }
  | .mongoBackupTask _ s l n d =>
    { print := none
      mySQLBackupTask := none
      mongoBackupTask := some { serviceID := s, locationID := l, name := n, description := d } }

/-- The Go Type method reads no field and writes none; embedded as the
returned discriminator paired with the unchanged receiver state. -/
def Task.typeM (t : Task) : ScheduledTaskType × Task := (t.type, t)

/-- The Go Data method reads the variant fields and writes none; embedded
as the returned snapshot paired with the unchanged receiver state. -/
def Task.dataM (t : Task) : ScheduledTaskData × Task := (t.data, t)

/-- An observation: one call to Data or to Type on a task. -/
inductive TaskObs where
  | obsData
  | obsType
deriving DecidableEq, Repr

/-- The task state left behind by one observation call. -/
def applyObs (t : Task) : TaskObs → Task
  | .obsData => (t.dataM).2
  | .obsType => (t.typeM).2

/-- The task state left behind by a finite sequence of Data and Type
calls. -/
def runObs (t : Task) : List TaskObs → Task
  | [] => t
  | o :: os => runObs (applyObs t o) os

/-- Modelled from the spec: the type-tag to constructor registry that
rehydrates a task from its persisted type and data snapshot after a
restart; the registry itself is not among the sources. Each tag selects
its variant payload inside the data and applies the matching constructor
to the stored fields. -/
def reconstructTask (ty : ScheduledTaskType) (d : ScheduledTaskData) : Option Task :=
  match ty with
  | .scheduledPrintTask =>
    d.print.map (fun p => NewPrintTask p.message)
  | .scheduledMySQLBackupTask =>
    d.mySQLBackupTask.map (fun p =>
      NewMySQLBackupTask p.serviceID p.locationID p.name p.description)
  | .scheduledMongoBackupTask =>
    d.mongoBackupTask.map (fun p =>
      NewMongoBackupTask p.serviceID p.locationID p.name p.description)

/-! Concrete fixtures used by witnesses and counterexamples. -/

/-- A jobs service whose dispatch calls always succeed. -/
def okJobs : JobsService :=
  { startMySQLBackupJob := fun _ => none
    startMySQLRestoreBackupJob := fun _ => none }

/-- An empty database. -/
def emptyDB : DB :=
  { services := [], locations := [], artifacts := [], restoreItems := []
    jobResults := [], agents := [], dbConfigs := [], nextID := 0 }

/-! Helper lemmas. -/

/-- A generated id with a non-empty prefix is non-empty. -/
theorem genID_ne_empty (pfx : String) (n : Nat) (h : pfx.length ≠ 0) :
    genID pfx n ≠ "" := by
  unfold genID
  intro hc
  have hlen := congrArg String.length hc
  rw [String.length_append] at hlen
  simp only [String.length_empty] at hlen
  omega

/-- Data and Type observations leave a task unchanged: the method bodies
read fields only. -/
theorem runObs_eq_self (obs : List TaskObs) (t : Task) : runObs t obs = t := by
  induction obs generalizing t with
  | nil => rfl
  | cons o os ih => cases o <;> exact ih t

/-- SetID stores the given id in every variant. -/
theorem getID_setID (t : Task) (id : String) : (t.setID id).getID = id := by
  cases t <;> rfl

/-- Reduction of the Except monad bind on a success value. -/
theorem ok_bind {α β : Type} (a : α) (f : α → Except Err β) :
    (Except.ok a : Except Err α) >>= f = f a := rfl

/-- Reduction of the Except monad bind on an error value. -/
theorem error_bind {α β : Type} (e : Err) (f : α → Except Err β) :
    (Except.error e : Except Err α) >>= f = Except.error e := rfl

/-- Reduction of pure in the Except monad. -/
theorem pure_ok {α : Type} (a : α) :
    (pure a : Except Err α) = Except.ok a := rfl

/-- The mysql branch of the service type switch. -/
theorem serviceDataModel_mysql : serviceDataModel "mysql" = .ok .physical := rfl

/-- The unsupported branches of the service type switch. -/
theorem serviceDataModel_unsupported (st : String)
    (h : st ∈ unsupportedServiceTypes) :
    serviceDataModel st = .error (.unimplemented ("unimplemented service: " ++ st)) := by
  simp only [unsupportedServiceTypes, List.mem_cons, List.not_mem_nil, or_false] at h
  rcases h with h | h | h | h | h <;> subst h <;> rfl

/-- DB config lookup ignores the artifacts and nextID fields, the only
fields CreateArtifact writes. -/
theorem FindDBConfigForService_update (db : DB) (arts : List Artifact)
    (n : Nat) (sid : String) :
    FindDBConfigForService { db with artifacts := arts, nextID := n } sid =
      FindDBConfigForService db sid := rfl

/-- Agent lookup ignores the artifacts and nextID fields, the only fields
CreateArtifact writes. -/
theorem FindPMMAgentsForService_update (db : DB) (arts : List Artifact)
    (n : Nat) (sid : String) :
    FindPMMAgentsForService { db with artifacts := arts, nextID := n } sid =
      FindPMMAgentsForService db sid := rfl

/-- prepareBackupJob fails with the plain errors.Errorf error when the
service has no agent, regardless of the rest of the database. -/
theorem prepareBackupJob_no_agent (db : DB) (svc : Service)
    (artifactID : String) (jt : JobType) (cfg : DBConfig)
    (hcfg : FindDBConfigForService db svc.serviceID = .ok cfg)
    (hag : FindPMMAgentsForService db svc.serviceID = []) :
    prepareBackupJob db svc artifactID jt =
      .error (.generic "pmmAgent not found for service") := by
  unfold prepareBackupJob
  simp only [hcfg, ok_bind, hag]

/-! Theorems for the frozen claims. -/

/-- C8: for every Task and every id, after SetID(id) any finite sequence
of Data() and Type() calls leaves ID() equal to id — Data() and Type()
never mutate the task identity. -/
theorem setID_then_observations_preserve_id (t : Task) (id : String)
    (obs : List TaskObs) : (runObs (t.setID id) obs).getID = id := by
  rw [runObs_eq_self, getID_setID]

/-- C6 counterexample: calling SetID a second time does not fail — it
silently overwrites the previously assigned id. On a concrete print task,
after SetID "id-1" then SetID "id-2", ID() is "id-2", no longer "id-1". -/
theorem setID_twice_overwrites_cx :
    ((NewPrintTask "hello").setID "id-1" |>.setID "id-2").getID = "id-2" ∧
    ((NewPrintTask "hello").setID "id-1" |>.setID "id-2").getID ≠ "id-1" := by
  exact ⟨rfl, by decide⟩

/-- C6 amended: calling SetID a second time silently overwrites the
previously assigned id with the new one; no failure occurs and the first
id is lost. -/
theorem setID_twice_silently_overwrites (t : Task) (id1 id2 : String) :
    ((t.setID id1).setID id2).getID = id2 := by
  cases t <;> rfl

/-- C7: Data() is a pure, side-effect-free snapshot exactly equal to the
parameters supplied at construction for every variant, and reconstructing
a task from its type tag and data via the registry then serializing again
yields the same data and type (serialize, reconstruct, serialize is
idempotent). -/
theorem data_snapshot_and_roundtrip :
    (∀ m, (NewPrintTask m).data =
      { print := some { message := m }
        mySQLBackupTask := none, mongoBackupTask := none }) ∧
    (∀ s l n d, (NewMySQLBackupTask s l n d).data =
      { print := none
        mySQLBackupTask := some
          { serviceID := s, locationID := l, name := n, description := d }
        mongoBackupTask := none }) ∧
    (∀ s l n d, (NewMongoBackupTask s l n d).data =
      { print := none, mySQLBackupTask := none
        mongoBackupTask := some
          { serviceID := s, locationID := l, name := n, description := d } }) ∧
    (∀ t : Task, t.dataM = (t.data, t)) ∧
    (∀ t : Task, (reconstructTask t.type t.data).map Task.data = some t.data ∧
      (reconstructTask t.type t.data).map Task.type = some t.type) := by
  refine ⟨fun m => rfl, fun s l n d => rfl, fun s l n d => rfl,
    fun t => rfl, fun t => ?_⟩
  cases t <;> exact ⟨rfl, rfl⟩

/-- A database with one PostgreSQL service and one location, used to
exercise the Unimplemented rejection in StartBackup. -/
def pgBackupDB : DB :=
  { services := [{ serviceID := "svc-pg", serviceType := "postgresql" }]
    locations := [{ locationID := "loc-1", pmmServerConfig := none
                    pmmClientConfig := none, s3Config := none }]
    artifacts := [], restoreItems := [], jobResults := []
    agents := [], dbConfigs := [], nextID := 0 }

/-- A database with one MySQL service, a location and a DB config but no
registered agent. -/
def noAgentDB : DB :=
  { services := [{ serviceID := "svc-1", serviceType := "mysql" }]
    locations := [{ locationID := "loc-1", pmmServerConfig := none
                    pmmClientConfig := none, s3Config := none }]
    artifacts := [], restoreItems := [], jobResults := []
    agents := [], dbConfigs := [("svc-1", "cfg-1")], nextID := 0 }

/-- C3: every StartBackup whose transaction body fails returns that error
with the database unchanged and no dispatch call (full rollback, never a
partial write); in particular a service of unsupported type is rejected
Unimplemented inside the transaction with nothing persisted. -/
theorem startBackup_tx_failure_rolls_back :
    (∀ (js : JobsService) (db : DB) (serviceId locationId name : String) (e : Err),
      startBackupTx db serviceId locationId name = Except.error e →
      StartBackup js db serviceId locationId name = (Except.error e, db, [])) ∧
    (∀ (js : JobsService) (db : DB) (serviceId locationId name : String)
        (svc : Service) (loc : BackupLocation),
      FindServiceByID db serviceId = Except.ok svc →
      FindBackupLocationByID db locationId = Except.ok loc →
      svc.serviceType ∈ unsupportedServiceTypes →
      StartBackup js db serviceId locationId name =
        (Except.error (Err.unimplemented ("unimplemented service: " ++ svc.serviceType)),
         db, [])) := by
  constructor
  · intro js db serviceId locationId name e h
    unfold StartBackup
    rw [h]
  · intro js db serviceId locationId name svc loc hsvc hloc hmem
    have htx : startBackupTx db serviceId locationId name =
        Except.error (Err.unimplemented ("unimplemented service: " ++ svc.serviceType)) := by
      unfold startBackupTx
      simp only [hsvc, ok_bind, hloc, serviceDataModel_unsupported svc.serviceType hmem,
        error_bind]
    unfold StartBackup
    rw [htx]

/-- Witness for C3 at concrete inputs: a missing service rolls back, and a
PostgreSQL service is rejected Unimplemented with nothing persisted. -/
theorem startBackup_tx_failure_rolls_back_witness :
    StartBackup okJobs emptyDB "svc-1" "loc-1" "nightly" =
      (Except.error (Err.notFound "service svc-1 not found"), emptyDB, []) ∧
    StartBackup okJobs pgBackupDB "svc-pg" "loc-1" "nightly" =
      (Except.error (Err.unimplemented "unimplemented service: postgresql"),
       pgBackupDB, []) := by
  constructor
  · exact startBackup_tx_failure_rolls_back.1 okJobs emptyDB "svc-1" "loc-1" "nightly"
      (Err.notFound "service svc-1 not found") rfl
  · exact startBackup_tx_failure_rolls_back.2 okJobs pgBackupDB "svc-pg" "loc-1"
      "nightly" { serviceID := "svc-pg", serviceType := "postgresql" }
      { locationID := "loc-1", pmmServerConfig := none
        pmmClientConfig := none, s3Config := none }
      rfl rfl (by decide)

/-- C4 counterexample: on a concrete database with a MySQL service, a
location, a DB config and no agent, StartBackup fails with the plain
errors.Errorf error "pmmAgent not found for service", which carries no
classification — it is a generic failure, not a distinct
dependency-missing error kind. -/
theorem startBackup_no_agent_generic_cx :
    (StartBackup okJobs noAgentDB "svc-1" "loc-1" "nightly").1 =
      Except.error (Err.generic "pmmAgent not found for service") ∧
    Err.isGeneric (Err.generic "pmmAgent not found for service") = true := by
  exact ⟨rfl, rfl⟩

/-- C4 amended: when no agent exists for the target service, StartBackup
fails inside the transaction with the explicit message "pmmAgent not found
for service" and nothing is persisted, but the error is a plain generic
error (errors.Errorf), not a distinct dependency-missing kind. -/
theorem startBackup_no_agent_plain_error
    (js : JobsService) (db : DB) (serviceId locationId name : String)
    (svc : Service) (loc : BackupLocation) (cfg : DBConfig)
    (hsvc : FindServiceByID db serviceId = Except.ok svc)
    (hst : svc.serviceType = "mysql")
    (hloc : FindBackupLocationByID db locationId = Except.ok loc)
    (hcfg : FindDBConfigForService db svc.serviceID = Except.ok cfg)
    (hag : FindPMMAgentsForService db svc.serviceID = []) :
    StartBackup js db serviceId locationId name =
      (Except.error (Err.generic "pmmAgent not found for service"), db, []) ∧
    Err.isGeneric (Err.generic "pmmAgent not found for service") = true := by
  refine ⟨?_, rfl⟩
  have htx : startBackupTx db serviceId locationId name =
      Except.error (Err.generic "pmmAgent not found for service") := by
    unfold startBackupTx CreateArtifact prepareBackupJob
    simp only [hsvc, ok_bind, hloc, hst, serviceDataModel_mysql,
      FindDBConfigForService_update, FindPMMAgentsForService_update,
      hcfg, hag, error_bind]
  unfold StartBackup
  rw [htx]

/-- Witness for C4 amended at the concrete no-agent database. -/
theorem startBackup_no_agent_plain_error_witness :
    StartBackup okJobs noAgentDB "svc-1" "loc-1" "nightly" =
      (Except.error (Err.generic "pmmAgent not found for service"), noAgentDB, []) ∧
    Err.isGeneric (Err.generic "pmmAgent not found for service") = true := by
  exact startBackup_no_agent_plain_error okJobs noAgentDB "svc-1" "loc-1" "nightly"
    { serviceID := "svc-1", serviceType := "mysql" }
    { locationID := "loc-1", pmmServerConfig := none
      pmmClientConfig := none, s3Config := none }
    "cfg-1" rfl rfl rfl rfl rfl

/-- C2: a StartBackup call on a MySQL service whose service, location, DB
config and at least one agent resolve, and whose dispatch succeeds,
returns the id of the newly created Artifact (non-empty); exactly one
Artifact is appended, pending with vendor "mysql"; exactly one JobResult
is appended, tagged with that artifact id and owned by the first agent;
and exactly one dispatch call is made, carrying the job id, agent id, the
request name, the resolved DB config and the location transport
configuration. -/
theorem startBackup_mysql_success
    (js : JobsService) (db : DB) (serviceId locationId name : String)
    (svc : Service) (loc : BackupLocation) (cfg : DBConfig)
    (agent : Agent) (rest : List Agent)
    (hsvc : FindServiceByID db serviceId = Except.ok svc)
    (hst : svc.serviceType = "mysql")
    (hloc : FindBackupLocationByID db locationId = Except.ok loc)
    (hcfg : FindDBConfigForService db svc.serviceID = Except.ok cfg)
    (hag : FindPMMAgentsForService db svc.serviceID = agent :: rest)
    (hjs : ∀ c, js.startMySQLBackupJob c = none) :
    StartBackup js db serviceId locationId name =
      (Except.ok (genID "/artifact_id/" db.nextID),
       { db with
           artifacts := db.artifacts ++
             [{ id := genID "/artifact_id/" db.nextID, name := name
                vendor := "mysql", locationID := loc.locationID
                serviceID := svc.serviceID, dataModel := .physical
                status := .pending }]
           jobResults := db.jobResults ++
             [{ id := genID "/job_id/" (db.nextID + 1)
                pmmAgentID := agent.agentID
                jobType := .mySQLBackupJob
                result := { mySQLBackup := some
                              { artifactID := genID "/artifact_id/" db.nextID }
                            mySQLRestoreBackup := none } }]
           nextID := db.nextID + 2 },
       [{ jobID := genID "/job_id/" (db.nextID + 1)
          pmmAgentID := agent.agentID, priority := 0, name := name
          dbConfig := cfg
          locationConfig := { pmmServerConfig := loc.pmmServerConfig
                              pmmClientConfig := loc.pmmClientConfig
                              s3Config := loc.s3Config } }]) ∧
    genID "/artifact_id/" db.nextID ≠ "" := by
  constructor
  · unfold StartBackup startBackupTx prepareBackupJob CreateArtifact CreateJobResult
    simp only [hsvc, ok_bind, hloc, hst, serviceDataModel_mysql,
      FindDBConfigForService_update, FindPMMAgentsForService_update,
      hcfg, hag, pure_ok, hjs]
    simp [Nat.add_assoc]
  · exact genID_ne_empty _ _ (by decide)

/-- A database on which the MySQL backup happy path runs: one MySQL
service with a DB config, one location and one registered agent. -/
def mysqlBackupDB : DB :=
  { services := [{ serviceID := "svc-mysql-1", serviceType := "mysql" }]
    locations := [{ locationID := "loc-1", pmmServerConfig := some "srv"
                    pmmClientConfig := none, s3Config := some "s3" }]
    artifacts := [], restoreItems := [], jobResults := []
    agents := [("svc-mysql-1", { agentID := "agent-1" })]
    dbConfigs := [("svc-mysql-1", "dsn-1")], nextID := 0 }

/-- Witness for C2 on a concrete database. -/
theorem startBackup_mysql_success_witness :
    StartBackup okJobs mysqlBackupDB "svc-mysql-1" "loc-1" "nightly" =
      (Except.ok (genID "/artifact_id/" 0),
       { mysqlBackupDB with
           artifacts := [{ id := genID "/artifact_id/" 0, name := "nightly"
                           vendor := "mysql", locationID := "loc-1"
                           serviceID := "svc-mysql-1", dataModel := .physical
                           status := .pending }]
           jobResults := [{ id := genID "/job_id/" 1
                            pmmAgentID := "agent-1"
                            jobType := .mySQLBackupJob
                            result := { mySQLBackup := some
                                          { artifactID := genID "/artifact_id/" 0 }
                                        mySQLRestoreBackup := none } }]
           nextID := 2 },
       [{ jobID := genID "/job_id/" 1
          pmmAgentID := "agent-1", priority := 0, name := "nightly"
          dbConfig := "dsn-1"
          locationConfig := { pmmServerConfig := some "srv"
                              pmmClientConfig := none
                              s3Config := some "s3" } }]) ∧
    genID "/artifact_id/" 0 ≠ "" := by
  exact startBackup_mysql_success okJobs mysqlBackupDB "svc-mysql-1" "loc-1"
    "nightly" { serviceID := "svc-mysql-1", serviceType := "mysql" }
    { locationID := "loc-1", pmmServerConfig := some "srv"
      pmmClientConfig := none, s3Config := some "s3" }
    "dsn-1" { agentID := "agent-1" } [] rfl rfl rfl rfl rfl (fun _ => rfl)

/-- The dispatch call StartBackup makes for a committed transaction
output. -/
def backupDispatchCall (out : StartBackupTxOut) (name : String) : MySQLBackupCall :=
  { jobID := out.job.id
    pmmAgentID := out.job.pmmAgentID
    priority := 0
    name := name
    dbConfig := out.config
    locationConfig := { pmmServerConfig := out.location.pmmServerConfig
                        pmmClientConfig := out.location.pmmClientConfig
                        s3Config := out.location.s3Config } }

/-- The dispatch call RestoreBackup makes for a committed transaction
output. -/
def restoreDispatchCall (out : RestoreTxOut) (serviceID : String) : MySQLRestoreCall :=
  { jobID := out.jobID
    pmmAgentID := out.params.agentID
    serviceID := serviceID
    priority := 0
    name := out.params.artifactName
    locationConfig := { pmmServerConfig := out.params.location.pmmServerConfig
                        pmmClientConfig := out.params.location.pmmClientConfig
                        s3Config := out.params.location.s3Config } }

/-- C5: when the transaction of StartBackup or RestoreBackup commits but
the subsequent dispatch call fails, the operation returns the dispatch
error to the caller — not a silent success — while the committed rows (the
database state produced by the transaction) are kept unchanged. -/
theorem dispatch_failure_surfaced :
    (∀ (js : JobsService) (db : DB) (serviceId locationId name : String)
        (out : StartBackupTxOut) (e : Err),
      startBackupTx db serviceId locationId name = Except.ok out →
      out.svc.serviceType = "mysql" →
      js.startMySQLBackupJob (backupDispatchCall out name) = some e →
      StartBackup js db serviceId locationId name =
        (Except.error e, out.db, [backupDispatchCall out name])) ∧
    (∀ (js : JobsService) (db : DB) (serviceId artifactId : String)
        (out : RestoreTxOut) (e : Err),
      restoreBackupTx db serviceId artifactId = Except.ok out →
      out.params.serviceType = "mysql" →
      js.startMySQLRestoreBackupJob (restoreDispatchCall out serviceId) = some e →
      RestoreBackup js db serviceId artifactId =
        (Except.error e, out.db, [restoreDispatchCall out serviceId])) := by
  constructor
  · intro js db serviceId locationId name out e htx hstype hcall
    unfold StartBackup
    rw [htx]
    simp only [backupDispatchCall] at hcall
    simp [hstype, hcall, backupDispatchCall]
  · intro js db serviceId artifactId out e htx hstype hcall
    have hpost : startRestoreJob js out.jobID serviceId out.params =
        (some e, [restoreDispatchCall out serviceId]) := by
      unfold startRestoreJob
      simp only [restoreDispatchCall] at hcall
      simp [hstype, hcall, restoreDispatchCall]
    unfold RestoreBackup
    simp only [htx, hpost]

/-- A jobs service whose dispatch calls always fail. -/
def failJobs : JobsService :=
  { startMySQLBackupJob := fun _ => some (.dispatchFail "agent unreachable")
    startMySQLRestoreBackupJob := fun _ => some (.dispatchFail "agent unreachable") }

/-- A database on which the MySQL restore happy path runs: one MySQL
service with an agent, and an artifact stored at an existing location. -/
def mysqlRestoreDB : DB :=
  { services := [{ serviceID := "svc-mysql-1", serviceType := "mysql" }]
    locations := [{ locationID := "loc-1", pmmServerConfig := some "srv"
                    pmmClientConfig := none, s3Config := some "s3" }]
    artifacts := [{ id := "art-1", name := "nightly", vendor := "mysql"
                    locationID := "loc-1", serviceID := "svc-mysql-1"
                    dataModel := .physical, status := .success }]
    restoreItems := [], jobResults := []
    agents := [("svc-mysql-1", { agentID := "agent-1" })]
    dbConfigs := [], nextID := 0 }

/-- The committed transaction output of StartBackup on mysqlBackupDB. -/
def backupFailOut : StartBackupTxOut :=
  { svc := { serviceID := "svc-mysql-1", serviceType := "mysql" }
    location := { locationID := "loc-1", pmmServerConfig := some "srv"
                  pmmClientConfig := none, s3Config := some "s3" }
    artifact := { id := "/artifact_id/0", name := "nightly", vendor := "mysql"
                  locationID := "loc-1", serviceID := "svc-mysql-1"
                  dataModel := .physical, status := .pending }
    job := { id := "/job_id/1", pmmAgentID := "agent-1"
             jobType := .mySQLBackupJob
             result := { mySQLBackup := some { artifactID := "/artifact_id/0" }
                         mySQLRestoreBackup := none } }
    config := "dsn-1"
    db := { services := [{ serviceID := "svc-mysql-1", serviceType := "mysql" }]
            locations := [{ locationID := "loc-1", pmmServerConfig := some "srv"
                            pmmClientConfig := none, s3Config := some "s3" }]
            artifacts := [{ id := "/artifact_id/0", name := "nightly"
                            vendor := "mysql", locationID := "loc-1"
                            serviceID := "svc-mysql-1", dataModel := .physical
                            status := .pending }]
            restoreItems := []
            jobResults := [{ id := "/job_id/1", pmmAgentID := "agent-1"
                             jobType := .mySQLBackupJob
                             result := { mySQLBackup := some { artifactID := "/artifact_id/0" }
                                         mySQLRestoreBackup := none } }]
            agents := [("svc-mysql-1", { agentID := "agent-1" })]
            dbConfigs := [("svc-mysql-1", "dsn-1")], nextID := 2 } }

/-- The committed transaction output of RestoreBackup on mysqlRestoreDB. -/
def restoreFailOut : RestoreTxOut :=
  { params := { agentID := "agent-1", artifactName := "nightly"
                location := { locationID := "loc-1", pmmServerConfig := some "srv"
                              pmmClientConfig := none, s3Config := some "s3" }
                serviceType := "mysql" }
    restoreID := "/restore_id/0"
    jobID := "/job_id/1"
    db := { services := [{ serviceID := "svc-mysql-1", serviceType := "mysql" }]
            locations := [{ locationID := "loc-1", pmmServerConfig := some "srv"
                            pmmClientConfig := none, s3Config := some "s3" }]
            artifacts := [{ id := "art-1", name := "nightly", vendor := "mysql"
                            locationID := "loc-1", serviceID := "svc-mysql-1"
                            dataModel := .physical, status := .success }]
            restoreItems := [{ id := "/restore_id/0", artifactID := "art-1"
                               serviceID := "svc-mysql-1", status := .inProgress }]
            jobResults := [{ id := "/job_id/1", pmmAgentID := "agent-1"
                             jobType := .mySQLRestoreBackupJob
                             result := { mySQLBackup := none
                                         mySQLRestoreBackup := some { restoreID := "/restore_id/0" } } }]
            agents := [("svc-mysql-1", { agentID := "agent-1" })]
            dbConfigs := [], nextID := 2 } }

/-- Witness for C5: on concrete databases whose transactions commit, a
failing dispatcher makes both operations return the dispatch error while
the committed rows remain. -/
theorem dispatch_failure_surfaced_witness :
    StartBackup failJobs mysqlBackupDB "svc-mysql-1" "loc-1" "nightly" =
      (Except.error (Err.dispatchFail "agent unreachable"), backupFailOut.db,
       [backupDispatchCall backupFailOut "nightly"]) ∧
    RestoreBackup failJobs mysqlRestoreDB "svc-mysql-1" "art-1" =
      (Except.error (Err.dispatchFail "agent unreachable"), restoreFailOut.db,
       [restoreDispatchCall restoreFailOut "svc-mysql-1"]) := by
  exact ⟨dispatch_failure_surfaced.1 failJobs mysqlBackupDB "svc-mysql-1" "loc-1"
           "nightly" backupFailOut (Err.dispatchFail "agent unreachable") rfl rfl rfl,
         dispatch_failure_surfaced.2 failJobs mysqlRestoreDB "svc-mysql-1" "art-1"
           restoreFailOut (Err.dispatchFail "agent unreachable") rfl rfl rfl⟩

/-- An unsupported service type is not mysql. -/
theorem unsupported_ne_mysql (st : String) (h : st ∈ unsupportedServiceTypes) :
    (st == "mysql") = false := by
  simp only [unsupportedServiceTypes, List.mem_cons, List.not_mem_nil, or_false] at h
  rcases h with h | h | h | h | h <;> subst h <;> rfl

/-- The restore transaction commits and creates its two rows for every
resolvable service, artifact, location and agent — the service type is
never examined inside the transaction. -/
theorem restoreBackupTx_ok (db : DB) (serviceId artifactId : String)
    (svc : Service) (artifact : Artifact) (loc : BackupLocation)
    (agent : Agent) (rest : List Agent)
    (hsvc : FindServiceByID db serviceId = Except.ok svc)
    (hart : FindArtifactByID db artifactId = Except.ok artifact)
    (hloc : FindBackupLocationByID db artifact.locationID = Except.ok loc)
    (hag : FindPMMAgentsForService db serviceId = agent :: rest) :
    restoreBackupTx db serviceId artifactId = Except.ok
      { params := { agentID := agent.agentID, artifactName := artifact.name
                    location := loc, serviceType := svc.serviceType }
        restoreID := genID "/restore_id/" db.nextID
        jobID := genID "/job_id/" (db.nextID + 1)
        db := { db with
                  restoreItems := db.restoreItems ++
                    [{ id := genID "/restore_id/" db.nextID
                       artifactID := artifactId, serviceID := serviceId
                       status := .inProgress }]
                  jobResults := db.jobResults ++
                    [{ id := genID "/job_id/" (db.nextID + 1)
                       pmmAgentID := agent.agentID
                       jobType := .mySQLRestoreBackupJob
                       result := { mySQLBackup := none
                                   mySQLRestoreBackup := some
                                     { restoreID := genID "/restore_id/" db.nextID } } }]
                  nextID := db.nextID + 2 } } := by
  unfold restoreBackupTx prepareRestoreJob CreateRestoreHistoryItem CreateJobResult
  simp only [hsvc, ok_bind, hart, hloc, hag, pure_ok]

/-- startRestoreJob rejects an unsupported service type with Unimplemented
and makes no dispatch call. -/
theorem startRestoreJob_unsupported (js : JobsService) (jobID serviceID : String)
    (params : PrepareRestoreJobParams)
    (hmem : params.serviceType ∈ unsupportedServiceTypes) :
    startRestoreJob js jobID serviceID params =
      (some (.unimplemented ("unimplemented service: " ++ params.serviceType)), []) := by
  have hne := unsupported_ne_mysql params.serviceType hmem
  unfold startRestoreJob
  simp [hne, hmem]

/-- A database with a PostgreSQL service, its agent, and an artifact at an
existing location: everything RestoreBackup needs to run its transaction,
for a service type the restore job does not support. -/
def pgRestoreDB : DB :=
  { services := [{ serviceID := "svc-pg", serviceType := "postgresql" }]
    locations := [{ locationID := "loc-1", pmmServerConfig := some "srv"
                    pmmClientConfig := none, s3Config := none }]
    artifacts := [{ id := "art-1", name := "nightly", vendor := "postgresql"
                    locationID := "loc-1", serviceID := "svc-pg"
                    dataModel := .physical, status := .success }]
    restoreItems := [], jobResults := []
    agents := [("svc-pg", { agentID := "agent-1" })]
    dbConfigs := [], nextID := 0 }

/-- C1 counterexample: RestoreBackup on a PostgreSQL service does return
an Unimplemented error, but only after the transaction has committed: on a
database that starts with zero RestoreHistoryItem and zero JobResult rows,
the call leaves exactly one of each — the rejection does not happen before
rows are created, unlike StartBackup. -/
theorem restoreBackup_rejects_after_rows_cx :
    (RestoreBackup okJobs pgRestoreDB "svc-pg" "art-1").1 =
      Except.error (Err.unimplemented "unimplemented service: postgresql") ∧
    (RestoreBackup okJobs pgRestoreDB "svc-pg" "art-1").2.1.restoreItems.length = 1 ∧
    (RestoreBackup okJobs pgRestoreDB "svc-pg" "art-1").2.1.jobResults.length = 1 ∧
    pgRestoreDB.restoreItems.length = 0 ∧
    pgRestoreDB.jobResults.length = 0 := by
  exact ⟨rfl, rfl, rfl, rfl, rfl⟩

/-- startRestoreJob rejects an unrecognized service type with Unknown and
makes no dispatch call. -/
theorem startRestoreJob_unknown (js : JobsService) (jobID serviceID : String)
    (params : PrepareRestoreJobParams)
    (hne : (params.serviceType == "mysql") = false)
    (hnotmem : params.serviceType ∉ unsupportedServiceTypes) :
    startRestoreJob js jobID serviceID params =
      (some (.unknown ("unknown service: " ++ params.serviceType)), []) := by
  unfold startRestoreJob
  simp [hne, hnotmem]

/-- C1 amended: RestoreBackup rejects unsupported service types with
Unimplemented and unrecognized types with Unknown, but only after the
transaction commits: the RestoreHistoryItem and JobResult rows are created
and persist (no dispatch call is made). StartBackup, by contrast, rejects
such types inside the transaction before any row is created. -/
theorem restoreBackup_rejected_only_after_commit :
    (∀ (js : JobsService) (db : DB) (serviceId artifactId : String)
        (svc : Service) (artifact : Artifact) (loc : BackupLocation)
        (agent : Agent) (rest : List Agent),
      FindServiceByID db serviceId = Except.ok svc →
      FindArtifactByID db artifactId = Except.ok artifact →
      FindBackupLocationByID db artifact.locationID = Except.ok loc →
      FindPMMAgentsForService db serviceId = agent :: rest →
      svc.serviceType ∈ unsupportedServiceTypes →
      RestoreBackup js db serviceId artifactId =
        (Except.error (Err.unimplemented ("unimplemented service: " ++ svc.serviceType)),
         { db with
             restoreItems := db.restoreItems ++
               [{ id := genID "/restore_id/" db.nextID
                  artifactID := artifactId, serviceID := serviceId
                  status := .inProgress }]
             jobResults := db.jobResults ++
               [{ id := genID "/job_id/" (db.nextID + 1)
                  pmmAgentID := agent.agentID
                  jobType := .mySQLRestoreBackupJob
                  result := { mySQLBackup := none
                              mySQLRestoreBackup := some
                                { restoreID := genID "/restore_id/" db.nextID } } }]
             nextID := db.nextID + 2 },
         [])) ∧
    (∀ (js : JobsService) (db : DB) (serviceId artifactId : String)
        (svc : Service) (artifact : Artifact) (loc : BackupLocation)
        (agent : Agent) (rest : List Agent),
      FindServiceByID db serviceId = Except.ok svc →
      FindArtifactByID db artifactId = Except.ok artifact →
      FindBackupLocationByID db artifact.locationID = Except.ok loc →
      FindPMMAgentsForService db serviceId = agent :: rest →
      svc.serviceType ≠ "mysql" →
      svc.serviceType ∉ unsupportedServiceTypes →
      RestoreBackup js db serviceId artifactId =
        (Except.error (Err.unknown ("unknown service: " ++ svc.serviceType)),
         { db with
             restoreItems := db.restoreItems ++
               [{ id := genID "/restore_id/" db.nextID
                  artifactID := artifactId, serviceID := serviceId
                  status := .inProgress }]
             jobResults := db.jobResults ++
               [{ id := genID "/job_id/" (db.nextID + 1)
                  pmmAgentID := agent.agentID
                  jobType := .mySQLRestoreBackupJob
                  result := { mySQLBackup := none
                              mySQLRestoreBackup := some
                                { restoreID := genID "/restore_id/" db.nextID } } }]
             nextID := db.nextID + 2 },
         [])) := by
  constructor
  · intro js db serviceId artifactId svc artifact loc agent rest hsvc hart hloc hag hmem
    have htx := restoreBackupTx_ok db serviceId artifactId svc artifact loc agent rest
      hsvc hart hloc hag
    unfold RestoreBackup
    simp only [htx, startRestoreJob_unsupported js (genID "/job_id/" (db.nextID + 1))
      serviceId
      { agentID := agent.agentID, artifactName := artifact.name, location := loc
        serviceType := svc.serviceType } hmem]
  · intro js db serviceId artifactId svc artifact loc agent rest hsvc hart hloc hag
      hne hnotmem
    have htx := restoreBackupTx_ok db serviceId artifactId svc artifact loc agent rest
      hsvc hart hloc hag
    have hbe : (svc.serviceType == "mysql") = false := by
      simp [hne]
    unfold RestoreBackup
    simp only [htx, startRestoreJob_unknown js (genID "/job_id/" (db.nextID + 1))
      serviceId
      { agentID := agent.agentID, artifactName := artifact.name, location := loc
        serviceType := svc.serviceType } hbe hnotmem]

/-- A database with a service of unrecognized type and everything a
restore transaction resolves. -/
def unknownRestoreDB : DB :=
  { services := [{ serviceID := "svc-x", serviceType := "weird" }]
    locations := [{ locationID := "loc-1", pmmServerConfig := some "srv"
                    pmmClientConfig := none, s3Config := none }]
    artifacts := [{ id := "art-1", name := "nightly", vendor := "weird"
                    locationID := "loc-1", serviceID := "svc-x"
                    dataModel := .physical, status := .success }]
    restoreItems := [], jobResults := []
    agents := [("svc-x", { agentID := "agent-1" })]
    dbConfigs := [], nextID := 0 }

/-- Witness for C1 amended at the concrete PostgreSQL and unknown-type
restore databases. -/
theorem restoreBackup_rejected_only_after_commit_witness :
    RestoreBackup okJobs pgRestoreDB "svc-pg" "art-1" =
      (Except.error (Err.unimplemented "unimplemented service: postgresql"),
       { pgRestoreDB with
           restoreItems := [{ id := genID "/restore_id/" 0, artifactID := "art-1"
                              serviceID := "svc-pg", status := .inProgress }]
           jobResults := [{ id := genID "/job_id/" 1, pmmAgentID := "agent-1"
                            jobType := .mySQLRestoreBackupJob
                            result := { mySQLBackup := none
                                        mySQLRestoreBackup := some
                                          { restoreID := genID "/restore_id/" 0 } } }]
           nextID := 2 },
       []) ∧
    RestoreBackup okJobs unknownRestoreDB "svc-x" "art-1" =
      (Except.error (Err.unknown "unknown service: weird"),
       { unknownRestoreDB with
           restoreItems := [{ id := genID "/restore_id/" 0, artifactID := "art-1"
                              serviceID := "svc-x", status := .inProgress }]
           jobResults := [{ id := genID "/job_id/" 1, pmmAgentID := "agent-1"
                            jobType := .mySQLRestoreBackupJob
                            result := { mySQLBackup := none
                                        mySQLRestoreBackup := some
                                          { restoreID := genID "/restore_id/" 0 } } }]
           nextID := 2 },
       []) := by
  constructor
  · exact restoreBackup_rejected_only_after_commit.1 okJobs pgRestoreDB
      "svc-pg" "art-1" { serviceID := "svc-pg", serviceType := "postgresql" }
      { id := "art-1", name := "nightly", vendor := "postgresql"
        locationID := "loc-1", serviceID := "svc-pg"
        dataModel := .physical, status := .success }
      { locationID := "loc-1", pmmServerConfig := some "srv"
        pmmClientConfig := none, s3Config := none }
      { agentID := "agent-1" } [] rfl rfl rfl rfl (by decide)
  · exact restoreBackup_rejected_only_after_commit.2 okJobs unknownRestoreDB
      "svc-x" "art-1" { serviceID := "svc-x", serviceType := "weird" }
      { id := "art-1", name := "nightly", vendor := "weird"
        locationID := "loc-1", serviceID := "svc-x"
        dataModel := .physical, status := .success }
      { locationID := "loc-1", pmmServerConfig := some "srv"
        pmmClientConfig := none, s3Config := none }
      { agentID := "agent-1" } [] rfl rfl rfl rfl (by decide) (by decide)

/-- For a committed restore transaction on a mysql-type service, the
resulting database is exactly the committed one and exactly one dispatch
call is made, whatever the dispatcher answers. -/
theorem restoreBackup_committed_shape (js : JobsService) (db : DB)
    (serviceId artifactId : String) (out : RestoreTxOut)
    (htx : restoreBackupTx db serviceId artifactId = Except.ok out)
    (hst : out.params.serviceType = "mysql") :
    (RestoreBackup js db serviceId artifactId).2.1 = out.db ∧
    (RestoreBackup js db serviceId artifactId).2.2 =
      [restoreDispatchCall out serviceId] := by
  have hpost : startRestoreJob js out.jobID serviceId out.params =
      (js.startMySQLRestoreBackupJob (restoreDispatchCall out serviceId),
       [restoreDispatchCall out serviceId]) := by
    unfold startRestoreJob restoreDispatchCall
    simp [hst]
  unfold RestoreBackup
  simp only [htx, hpost]
  cases js.startMySQLRestoreBackupJob (restoreDispatchCall out serviceId) <;>
    exact ⟨rfl, rfl⟩

/-- A database whose target service svc-a is PostgreSQL-typed with an
agent, holding an artifact that exists at an existing location: every
hypothesis of C10 holds, yet the service type is not supported by the
restore dispatch. -/
def mismatchPgDB : DB :=
  { services := [{ serviceID := "svc-a", serviceType := "postgresql" }]
    locations := [{ locationID := "loc-9", pmmServerConfig := none
                    pmmClientConfig := none, s3Config := some "s3" }]
    artifacts := [{ id := "art-9", name := "weekly", vendor := "mysql"
                    locationID := "loc-9", serviceID := "svc-b"
                    dataModel := .physical, status := .success }]
    restoreItems := [], jobResults := []
    agents := [("svc-a", { agentID := "agent-9" })]
    dbConfigs := [], nextID := 0 }

/-- C10 counterexample: with the target service PostgreSQL-typed (service
exists, has an agent; the artifact and its location exist), RestoreBackup
makes no dispatch call at all — it fails Unimplemented after commit — so
the claim that the restore is dispatched for every such call is false. -/
theorem restoreBackup_not_dispatched_cx :
    (RestoreBackup okJobs mismatchPgDB "svc-a" "art-9").2.2 = [] ∧
    (RestoreBackup okJobs mismatchPgDB "svc-a" "art-9").1 =
      Except.error (Err.unimplemented "unimplemented service: postgresql") := by
  exact ⟨rfl, rfl⟩

/-- C10 amended: RestoreBackup performs no compatibility check between the
artifact and the target service: whenever the target service exists, is of
MySQL type and has at least one agent, and the artifact and its location
exist, the RestoreHistoryItem and JobResult rows are created and exactly
one restore dispatch call is made using the artifact's stored name — even
when the artifact records a different originating service, with no
hypothesis relating the artifact to the target service. -/
theorem restoreBackup_no_compat_check
    (js : JobsService) (db : DB) (serviceId artifactId : String)
    (svc : Service) (artifact : Artifact) (loc : BackupLocation)
    (agent : Agent) (rest : List Agent)
    (hsvc : FindServiceByID db serviceId = Except.ok svc)
    (hst : svc.serviceType = "mysql")
    (hart : FindArtifactByID db artifactId = Except.ok artifact)
    (hloc : FindBackupLocationByID db artifact.locationID = Except.ok loc)
    (hag : FindPMMAgentsForService db serviceId = agent :: rest) :
    (RestoreBackup js db serviceId artifactId).2.1 =
      { db with
          restoreItems := db.restoreItems ++
            [{ id := genID "/restore_id/" db.nextID
               artifactID := artifactId, serviceID := serviceId
               status := .inProgress }]
          jobResults := db.jobResults ++
            [{ id := genID "/job_id/" (db.nextID + 1)
               pmmAgentID := agent.agentID
               jobType := .mySQLRestoreBackupJob
               result := { mySQLBackup := none
                           mySQLRestoreBackup := some
                             { restoreID := genID "/restore_id/" db.nextID } } }]
          nextID := db.nextID + 2 } ∧
    (RestoreBackup js db serviceId artifactId).2.2 =
      [{ jobID := genID "/job_id/" (db.nextID + 1)
         pmmAgentID := agent.agentID
         serviceID := serviceId, priority := 0
         name := artifact.name
         locationConfig := { pmmServerConfig := loc.pmmServerConfig
                             pmmClientConfig := loc.pmmClientConfig
                             s3Config := loc.s3Config } }] := by
  have htx := restoreBackupTx_ok db serviceId artifactId svc artifact loc agent rest
    hsvc hart hloc hag
  exact restoreBackup_committed_shape js db serviceId artifactId _ htx hst

/-- A database whose MySQL target service svc-m has an agent, holding an
artifact that was produced from a different service (svc-other) with a
non-mysql vendor. -/
def mismatchMysqlDB : DB :=
  { services := [{ serviceID := "svc-m", serviceType := "mysql" }]
    locations := [{ locationID := "loc-9", pmmServerConfig := none
                    pmmClientConfig := none, s3Config := some "s3" }]
    artifacts := [{ id := "art-9", name := "weekly", vendor := "postgresql"
                    locationID := "loc-9", serviceID := "svc-other"
                    dataModel := .logical, status := .success }]
    restoreItems := [], jobResults := []
    agents := [("svc-m", { agentID := "agent-9" })]
    dbConfigs := [], nextID := 0 }

/-- Witness for C10 amended: restoring an artifact that records a
different originating service onto a MySQL service creates both rows and
dispatches with the artifact's stored name. -/
theorem restoreBackup_no_compat_check_witness :
    (RestoreBackup okJobs mismatchMysqlDB "svc-m" "art-9").2.1 =
      { mismatchMysqlDB with
          restoreItems := [{ id := genID "/restore_id/" 0, artifactID := "art-9"
                             serviceID := "svc-m", status := .inProgress }]
          jobResults := [{ id := genID "/job_id/" 1, pmmAgentID := "agent-9"
                           jobType := .mySQLRestoreBackupJob
                           result := { mySQLBackup := none
                                       mySQLRestoreBackup := some
                                         { restoreID := genID "/restore_id/" 0 } } }]
          nextID := 2 } ∧
    (RestoreBackup okJobs mismatchMysqlDB "svc-m" "art-9").2.2 =
      [{ jobID := genID "/job_id/" 1
         pmmAgentID := "agent-9", serviceID := "svc-m", priority := 0
         name := "weekly"
         locationConfig := { pmmServerConfig := none
                             pmmClientConfig := none
                             s3Config := some "s3" } }] := by
  exact restoreBackup_no_compat_check okJobs mismatchMysqlDB "svc-m" "art-9"
    { serviceID := "svc-m", serviceType := "mysql" }
    { id := "art-9", name := "weekly", vendor := "postgresql"
      locationID := "loc-9", serviceID := "svc-other"
      dataModel := .logical, status := .success }
    { locationID := "loc-9", pmmServerConfig := none
      pmmClientConfig := none, s3Config := some "s3" }
    { agentID := "agent-9" } [] rfl rfl rfl rfl rfl

end PmmManaged
